import Mathlib

/-!
Verification of the transactional CRUD backend (customers and orders).

The order pricing calculator and the CRUD handlers of src/main.py are
shallowly embedded here.  Monetary values, which the Python code holds as
floats, are modelled as exact rationals; the Python builtin round with two
decimal digits is modelled as round-half-to-even on rationals, mirroring
its documented behaviour.  The Mongo document store is modelled as lists of
documents, with find_one returning the first match, update_one updating the
first match and delete_one removing the first match.
-/

namespace Backend

/-- Round-half-to-even to an integer, the rounding mode of the Python
builtin round.  Rat.floor is used rather than the FloorRing floor so that
the definition evaluates inside the kernel. -/
def pyRound (q : ℚ) : ℤ :=
  if q - q.floor < 1/2 then q.floor
  else if 1/2 < q - q.floor then q.floor + 1
  else if q.floor % 2 = 0 then q.floor else q.floor + 1

/-- Rounding to two decimal places: the role of round(x, 2) in main.py. -/
def round2 (q : ℚ) : ℚ := (pyRound (q * 100) : ℚ) / 100

/-- Embedded line item of an order, from schemas.py OrderItem.  The pydantic
validators require unit_price to be nonnegative and quantity to be at least
one; those constraints appear as hypotheses of the theorems. -/
structure OrderItem where
  id : Option String
  product_name : String
  unit_price : ℚ
  quantity : ℕ
  line_total : Option ℚ
deriving DecidableEq, Repr

/-- Embedded order document, from schemas.py Order. -/
structure Order where
  customer_id : String
  status : String
  items : List OrderItem
  discount_type : String
  discount_value : ℚ
  subtotal : ℚ
  total : ℚ
deriving DecidableEq, Repr

/-- The per-item assignment done inside the loop of compute_order_totals:
item.line_total = round(item.unit_price * item.quantity, 2). -/
def computeLine (it : OrderItem) : OrderItem :=
  { it with line_total := some (round2 (it.unit_price * (it.quantity : ℚ))) }

/-- The value accumulated into the running subtotal for one item. -/
def lineTotal (it : OrderItem) : ℚ := round2 (it.unit_price * (it.quantity : ℚ))

/-- order.subtotal as computed by the loop of compute_order_totals:
the running sum of the freshly computed line totals, rounded to 2 places. -/
def orderSubtotal (o : Order) : ℚ :=
  round2 (o.items.foldl (fun acc it => acc + lineTotal it) 0)

/-- The discount branch of compute_order_totals: for discount_type "amount"
the discount is min(discount_value, subtotal); otherwise (percent) it is
min(round(subtotal * discount_value / 100, 2), subtotal). -/
def orderDiscount (o : Order) (sub : ℚ) : ℚ :=
  if o.discount_type = "amount" then
    min o.discount_value sub
  else
    min (round2 (sub * (o.discount_value / 100))) sub

/-- compute_order_totals from src/main.py: sets the line_total of every item,
the subtotal, and total = round(max(subtotal - discount, 0), 2). -/
def compute_order_totals (o : Order) : Order :=
  { o with
    items := o.items.map computeLine
    subtotal := orderSubtotal o
    total := round2 (max (orderSubtotal o - orderDiscount o (orderSubtotal o)) 0) }

/-- A stored customer document: the schemas.py Customer fields together with
the Mongo _id, rendered as a string. -/
structure CustomerDoc where
  id : String
  name : String
  email : String
  phone : Option String
  address : Option String
  status : String
deriving DecidableEq, Repr

/-- A stored order document: the Mongo _id together with the order data. -/
structure OrderDoc where
  id : String
  data : Order
deriving DecidableEq, Repr

/-- The document store: the customer and order collections. -/
structure DB where
  customers : List CustomerDoc
  orders : List OrderDoc
deriving DecidableEq, Repr

/-- An HTTPException as raised by the handlers. -/
structure Err where
  status_code : ℕ
  detail : String
deriving DecidableEq, Repr

/-- Mongo update_one: replace the first document matching the predicate. -/
def updateFirst (p : α → Bool) (f : α → α) : List α → List α
  | [] => []
  | a :: t => if p a then f a :: t else a :: updateFirst p f t

/-- GET /api/customers/:id from src/main.py. -/
def get_customer (db : DB) (cid : String) : Except Err CustomerDoc :=
  match db.customers.find? (fun c => c.id == cid) with
  | some c => .ok c
  | none => .error ⟨404, "Customer not found"⟩

/-- The partial-update payload for PUT /api/customers/:id; a none field is
absent from the request (pydantic exclude_none). -/
structure CustomerUpdate where
  name : Option String
  email : Option String
  phone : Option String
  address : Option String
  status : Option String
deriving DecidableEq, Repr

/-- Whether model_dump(exclude_none=True) of the payload is empty. -/
def isEmptyUpdate (u : CustomerUpdate) : Bool :=
  u.name.isNone && u.email.isNone && u.phone.isNone && u.address.isNone
    && u.status.isNone

/-- The Mongo dollar-set of the present payload fields onto a stored
customer document. -/
def applyUpdate (u : CustomerUpdate) (c : CustomerDoc) : CustomerDoc :=
  { c with
    name := u.name.getD c.name
    email := u.email.getD c.email
    phone := match u.phone with | some p => some p | none => c.phone
    address := match u.address with | some a => some a | none => c.address
    status := u.status.getD c.status }

/-- PUT /api/customers/:id from src/main.py: an empty update returns the
current record; an email among the changed fields is checked for uniqueness
against every customer with a different _id; then update_one runs and a zero
matched count yields 404.  Returns the store together with the response. -/
def update_customer (db : DB) (cid : String) (u : CustomerUpdate) :
    Except Err (DB × CustomerDoc) :=
  if isEmptyUpdate u then
    (get_customer db cid).map (fun c => (db, c))
  else if (match u.email with
      | some e =>
        (db.customers.find? (fun (c : CustomerDoc) => c.email == e && c.id != cid)).isSome
      | none => false) then
    .error ⟨400, "Email already exists"⟩
  else if (db.customers.find? (fun c => c.id == cid)).isSome then
    let db' : DB :=
      { db with customers := updateFirst (fun c => c.id == cid) (applyUpdate u) db.customers }
    (get_customer db' cid).map (fun c => (db', c))
  else
    .error ⟨404, "Customer not found"⟩

/-- DELETE /api/customers/:id from src/main.py: a 400 when some order
references the customer_id, then delete_one with a 404 on a zero deleted
count. -/
def delete_customer (db : DB) (cid : String) : Except Err DB :=
  if (db.orders.find? (fun o => o.data.customer_id == cid)).isSome then
    .error ⟨400, "Cannot delete customer with existing orders"⟩
  else if (db.customers.find? (fun c => c.id == cid)).isSome then
    .ok { db with customers := db.customers.eraseP (fun c => c.id == cid) }
  else
    .error ⟨404, "Customer not found"⟩

/-- POST /api/orders from src/main.py: a 400 when the customer_id matches no
customer, otherwise the totals are computed and the order is inserted.  The
store assigns the fresh ObjectId, passed here as newId. -/
def create_order (db : DB) (newId : String) (payload : Order) :
    Except Err (DB × OrderDoc) :=
  if (db.customers.find? (fun c => c.id == payload.customer_id)).isSome then
    let doc : OrderDoc := { id := newId, data := compute_order_totals payload }
    .ok ({ db with orders := db.orders ++ [doc] }, doc)
  else
    .error ⟨400, "Invalid customer_id"⟩

/-- Python truthiness of an optional string query parameter: None and the
empty string are falsy. -/
def truthy : Option String → Bool
  | none => false
  | some s => s ≠ ""

/-- GET /api/orders from src/main.py: the query dict gains a customer_id or
a status key only when the parameter is truthy; the store returns every
order matching all keys. -/
def list_orders (db : DB) (customer_id : Option String) (status : Option String) :
    List OrderDoc :=
  let cidFilter : Option String := if truthy customer_id then customer_id else none
  let stFilter : Option String := if truthy status then status else none
  db.orders.filter (fun o =>
    (match cidFilter with | some c => o.data.customer_id == c | none => true)
    && (match stFilter with | some s => o.data.status == s | none => true))

/-- A concrete item with unit price 10 and quantity 3. -/
def sampleItem : OrderItem :=
  { id := none, product_name := "A", unit_price := 10, quantity := 3, line_total := none }

/-- A concrete order over sampleItem with an amount discount of 5. -/
def sampleOrder : Order :=
  { customer_id := "c1", status := "draft", items := [sampleItem]
    discount_type := "amount", discount_value := 5, subtotal := 0, total := 0 }

/-- sampleOrder with an amount discount of 50, larger than the subtotal. -/
def sampleOrderBig : Order := { sampleOrder with discount_value := 50 }

/-- sampleOrder with a percent discount of 0. -/
def sampleOrderZero : Order :=
  { sampleOrder with discount_type := "percent", discount_value := 0 }

/-- A concrete stored customer. -/
def sampleCustomer : CustomerDoc :=
  { id := "c1", name := "Ada", email := "ada@example.com"
    phone := none, address := none, status := "active" }

/-- A second concrete stored customer with a different email. -/
def sampleCustomer2 : CustomerDoc :=
  { id := "c2", name := "Bob", email := "bob@example.com"
    phone := none, address := none, status := "active" }

/-- A store holding the two customers and no order. -/
def sampleDB : DB := { customers := [sampleCustomer, sampleCustomer2], orders := [] }

/-- A store holding one order of customer c1 and only the customer c2. -/
def sampleDBOrders : DB :=
  { customers := [sampleCustomer2]
    orders := [{ id := "o1", data := sampleOrder }] }

/-- An update payload that only sets the email, to the current address of
the first customer. -/
def sampleEmailUpdate : CustomerUpdate :=
  { name := none, email := some "ada@example.com", phone := none
    address := none, status := none }

theorem ratFloor_eq (q : ℚ) : q.floor = ⌊q⌋ := by
  rw [Rat.floor_def', Rat.floor_def]

theorem pyRound_intCast (n : ℤ) : pyRound (n : ℚ) = n := by
  unfold pyRound
  norm_num [ratFloor_eq]

theorem pyRound_nonneg (q : ℚ) (h : 0 ≤ q) : 0 ≤ pyRound q := by
  have hf : (0 : ℤ) ≤ q.floor := by
    rw [ratFloor_eq]
    exact Int.floor_nonneg.mpr h
  unfold pyRound
  split
  · exact hf
  · split
    · omega
    · split
      · exact hf
      · omega

theorem round2_nonneg (q : ℚ) (h : 0 ≤ q) : 0 ≤ round2 q := by
  unfold round2
  have h100 : 0 ≤ q * 100 := by positivity
  have := pyRound_nonneg (q * 100) h100
  positivity

theorem round2_zero : round2 0 = 0 := by
  unfold round2 pyRound
  norm_num [ratFloor_eq]

theorem round2_idem (q : ℚ) : round2 (round2 q) = round2 q := by
  unfold round2
  have : ((pyRound (q * 100) : ℚ) / 100) * 100 = ((pyRound (q * 100) : ℤ) : ℚ) := by
    field_simp
  rw [this, pyRound_intCast]

theorem foldl_add_eq (f : OrderItem → ℚ) (l : List OrderItem) (c : ℚ) :
    l.foldl (fun acc it => acc + f it) c = c + (l.map f).sum := by
  induction l generalizing c with
  | nil => simp
  | cons a t ih => simp [ih, add_assoc]

theorem lineTotal_nonneg (it : OrderItem) (h : 0 ≤ it.unit_price) :
    0 ≤ lineTotal it := by
  unfold lineTotal
  exact round2_nonneg _ (by positivity)

theorem orderSubtotal_nonneg (o : Order)
    (hp : ∀ it ∈ o.items, 0 ≤ it.unit_price) : 0 ≤ orderSubtotal o := by
  unfold orderSubtotal
  refine round2_nonneg _ ?_
  rw [foldl_add_eq, zero_add]
  exact List.sum_nonneg (by
    intro x hx
    obtain ⟨it, hit, rfl⟩ := List.mem_map.mp hx
    exact lineTotal_nonneg it (hp it hit))

theorem round2_orderSubtotal (o : Order) :
    round2 (orderSubtotal o) = orderSubtotal o := by
  unfold orderSubtotal
  exact round2_idem _

theorem compute_total_def (o : Order) :
    (compute_order_totals o).total
      = round2 (max (orderSubtotal o - orderDiscount o (orderSubtotal o)) 0) := rfl

theorem compute_subtotal_def (o : Order) :
    (compute_order_totals o).subtotal = orderSubtotal o := rfl

/-- Claim C1: for every order with subtotal at least 0 and discount_value at
least 0, under either discount_type, the total computed by
compute_order_totals is never negative. -/
theorem claim1_total_nonneg (o : Order)
    (hsub : 0 ≤ o.subtotal) (hdv : 0 ≤ o.discount_value)
    (hdt : o.discount_type = "amount" ∨ o.discount_type = "percent") :
    0 ≤ (compute_order_totals o).total := by
  rw [compute_total_def]
  exact round2_nonneg _ (le_max_right _ _)

/-- Witness for claim C1 at the concrete order sampleOrder. -/
theorem claim1_total_nonneg_witness : 0 ≤ (compute_order_totals sampleOrder).total :=
  claim1_total_nonneg sampleOrder (by norm_num [sampleOrder])
    (by norm_num [sampleOrder]) (Or.inl rfl)

/-- Claim C3: for every order with discount_type amount and discount_value
strictly greater than the computed subtotal, the computed total is exactly 0:
the effective discount is clamped at the subtotal. -/
theorem claim3_amount_over_discount (o : Order)
    (ht : o.discount_type = "amount")
    (hgt : (compute_order_totals o).subtotal < o.discount_value) :
    (compute_order_totals o).total = 0 := by
  rw [compute_subtotal_def] at hgt
  rw [compute_total_def]
  unfold orderDiscount
  rw [if_pos ht, min_eq_right (le_of_lt hgt), sub_self, max_self, round2_zero]

/-- Claim C7: for every order over nonnegative unit prices with
discount_value 0, under either discount_type, the computed total equals the
computed subtotal exactly. -/
theorem claim7_zero_discount (o : Order)
    (hd : o.discount_value = 0)
    (hp : ∀ it ∈ o.items, 0 ≤ it.unit_price) :
    (compute_order_totals o).total = (compute_order_totals o).subtotal := by
  have hs : 0 ≤ orderSubtotal o := orderSubtotal_nonneg o hp
  have hdisc : orderDiscount o (orderSubtotal o) = 0 := by
    unfold orderDiscount
    rw [hd]
    split
    · exact min_eq_left hs
    · rw [zero_div, mul_zero, round2_zero]
      exact min_eq_left hs
  rw [compute_total_def, compute_subtotal_def, hdisc, sub_zero, max_eq_left hs]
  exact round2_orderSubtotal o

/-- Witness for claim C3: an amount discount of 50 on a subtotal of 30
gives a total of exactly 0. -/
theorem claim3_amount_over_discount_witness :
    (compute_order_totals sampleOrderBig).total = 0 :=
  claim3_amount_over_discount sampleOrderBig rfl
    (by norm_num [compute_subtotal_def, orderSubtotal, lineTotal, round2, pyRound,
      ratFloor_eq, sampleOrderBig, sampleOrder, sampleItem])

/-- Witness for claim C7: a percent discount of 0 leaves total = subtotal. -/
theorem claim7_zero_discount_witness :
    (compute_order_totals sampleOrderZero).total
      = (compute_order_totals sampleOrderZero).subtotal :=
  claim7_zero_discount sampleOrderZero rfl
    (by norm_num [sampleOrderZero, sampleOrder, sampleItem])

/-- Claim C2: for every list of items with nonnegative unit_price and
quantity at least 1, compute_order_totals sets the line_total of each item to
round(unit_price * quantity, 2) and sets subtotal to the sum of all
line_totals rounded to 2 decimal places. -/
theorem claim2_line_totals_and_subtotal (o : Order)
    (hp : ∀ it ∈ o.items, 0 ≤ it.unit_price)
    (hq : ∀ it ∈ o.items, 1 ≤ it.quantity) :
    (compute_order_totals o).items.map OrderItem.line_total
      = o.items.map (fun it => some (round2 (it.unit_price * (it.quantity : ℚ))))
    ∧ (compute_order_totals o).subtotal
      = round2 ((o.items.map (fun it => round2 (it.unit_price * (it.quantity : ℚ)))).sum) := by
  constructor
  · show (o.items.map computeLine).map OrderItem.line_total = _
    rw [List.map_map]
    rfl
  · rw [compute_subtotal_def]
    unfold orderSubtotal
    rw [foldl_add_eq, zero_add]
    rfl

/-- Witness for claim C2 at the concrete order sampleOrder. -/
theorem claim2_line_totals_and_subtotal_witness :
    (compute_order_totals sampleOrder).items.map OrderItem.line_total
      = sampleOrder.items.map
          (fun it => some (round2 (it.unit_price * (it.quantity : ℚ))))
    ∧ (compute_order_totals sampleOrder).subtotal
      = round2 ((sampleOrder.items.map
          (fun it => round2 (it.unit_price * (it.quantity : ℚ)))).sum) :=
  claim2_line_totals_and_subtotal sampleOrder
    (by norm_num [sampleOrder, sampleItem])
    (by norm_num [sampleOrder, sampleItem])

theorem computeLine_idem (it : OrderItem) :
    computeLine (computeLine it) = computeLine it := rfl

theorem orderSubtotal_compute (o : Order) :
    orderSubtotal (compute_order_totals o) = orderSubtotal o := by
  unfold orderSubtotal
  show round2 ((o.items.map computeLine).foldl _ 0) = _
  rw [List.foldl_map]
  rfl

/-- Claim C8: compute_order_totals is a pure function and is idempotent:
applying it again to an order it has already computed yields the very same
order, hence the same line_totals, subtotal and total. -/
theorem claim8_compute_idempotent (o : Order) :
    compute_order_totals (compute_order_totals o) = compute_order_totals o := by
  have hitems : (compute_order_totals o).items.map computeLine
      = (compute_order_totals o).items := by
    show (o.items.map computeLine).map computeLine = o.items.map computeLine
    rw [List.map_map]
    exact List.map_congr_left (fun it _ => computeLine_idem it)
  have hdisc : orderDiscount (compute_order_totals o) = orderDiscount o := rfl
  show ({ compute_order_totals o with
      items := (compute_order_totals o).items.map computeLine
      subtotal := orderSubtotal (compute_order_totals o)
      total := round2 (max (orderSubtotal (compute_order_totals o)
        - orderDiscount (compute_order_totals o)
            (orderSubtotal (compute_order_totals o))) 0) } : Order)
    = compute_order_totals o
  rw [hitems, orderSubtotal_compute, hdisc]
  rfl

/-- Claim C4: creating an order fails with 400 Invalid customer_id whenever
customer_id matches no existing customer, regardless of the payload; on
valid input the order is persisted with the totals of compute_order_totals
applied before insertion. -/
theorem claim4_create_order (db : DB) (nid : String) (payload : Order) :
    (db.customers.find? (fun c => c.id == payload.customer_id) = none →
      create_order db nid payload = .error ⟨400, "Invalid customer_id"⟩)
    ∧ (∀ c, db.customers.find? (fun c => c.id == payload.customer_id) = some c →
      create_order db nid payload
        = .ok ({ db with orders := db.orders ++ [⟨nid, compute_order_totals payload⟩] },
               ⟨nid, compute_order_totals payload⟩)) := by
  constructor
  · intro h
    unfold create_order
    rw [h]
    rfl
  · intro c hc
    unfold create_order
    rw [hc]
    rfl

/-- Witness for claim C4: in a store containing customer c1, an order for
c1 is persisted with its computed totals. -/
theorem claim4_create_order_witness :
    create_order sampleDB "o1" sampleOrder
      = .ok ({ sampleDB with
                orders := sampleDB.orders ++ [⟨"o1", compute_order_totals sampleOrder⟩] },
             ⟨"o1", compute_order_totals sampleOrder⟩) :=
  (claim4_create_order sampleDB "o1" sampleOrder).2 sampleCustomer (by rfl)

/-- Claim C5: deleting a customer fails with 400 when any order references
the customer_id, fails with 404 when no order does and the customer does not
exist, and otherwise removes the customer record. -/
theorem claim5_delete_customer (db : DB) (cid : String) :
    ((db.orders.find? (fun o => o.data.customer_id == cid)).isSome = true →
      delete_customer db cid = .error ⟨400, "Cannot delete customer with existing orders"⟩)
    ∧ (db.orders.find? (fun o => o.data.customer_id == cid) = none →
       db.customers.find? (fun c => c.id == cid) = none →
       delete_customer db cid = .error ⟨404, "Customer not found"⟩)
    ∧ (db.orders.find? (fun o => o.data.customer_id == cid) = none →
       (db.customers.find? (fun c => c.id == cid)).isSome = true →
       delete_customer db cid
         = .ok { db with customers := db.customers.eraseP (fun c => c.id == cid) }) := by
  refine ⟨fun ho => ?_, fun ho hc => ?_, fun ho hc => ?_⟩
  · unfold delete_customer
    rw [if_pos ho]
  · unfold delete_customer
    rw [ho, hc]
    rfl
  · unfold delete_customer
    rw [ho, if_pos hc]
    rfl

/-- Witness for claim C5: customer c2 has no order, so deleting c2
succeeds and removes the record. -/
theorem claim5_delete_customer_witness :
    delete_customer sampleDB "c2"
      = .ok { sampleDB with
              customers := sampleDB.customers.eraseP (fun c => c.id == "c2") } :=
  (claim5_delete_customer sampleDB "c2").2.2 (by rfl) (by rfl)

/-- Claim C9: the order-reference check of customer deletion precedes the
existence check: for a customer id that exists in no customer document while
some order references it, the handler answers 400 Cannot delete customer
with existing orders, not 404. -/
theorem claim9_conflict_precedence (db : DB) (cid : String)
    (hc : db.customers.find? (fun c => c.id == cid) = none)
    (ho : (db.orders.find? (fun o => o.data.customer_id == cid)).isSome = true) :
    delete_customer db cid
      = .error ⟨400, "Cannot delete customer with existing orders"⟩ := by
  unfold delete_customer
  rw [if_pos ho]

/-- Witness for claim C9: the store sampleDBOrders has no customer c1 but
holds an order of c1; deleting c1 answers the conflict error. -/
theorem claim9_conflict_precedence_witness :
    delete_customer sampleDBOrders "c1"
      = .error ⟨400, "Cannot delete customer with existing orders"⟩ :=
  claim9_conflict_precedence sampleDBOrders "c1" (by rfl) (by rfl)

/-- Claim C10: when listing orders, an empty-string customer_id or status
query parameter acts exactly as an absent one, and listing with both empty
returns every order in the store. -/
theorem claim10_empty_filters (db : DB) (s : Option String) (c : Option String) :
    list_orders db (some "") s = list_orders db none s
    ∧ list_orders db c (some "") = list_orders db c none
    ∧ list_orders db (some "") (some "") = db.orders := by
  refine ⟨rfl, rfl, ?_⟩
  unfold list_orders truthy
  simp

theorem applyUpdate_id (u : CustomerUpdate) (c : CustomerDoc) :
    (applyUpdate u c).id = c.id := rfl

theorem updateFirst_find_isSome (cid : String) (u : CustomerUpdate)
    (l : List CustomerDoc)
    (h : (l.find? (fun c => c.id == cid)).isSome = true) :
    ((updateFirst (fun c => c.id == cid) (applyUpdate u) l).find?
        (fun c => c.id == cid)).isSome = true := by
  induction l with
  | nil => simp at h
  | cons a t ih =>
    by_cases ha : (a.id == cid) = true
    · simp only [updateFirst, ha, if_true]
      rw [List.find?_cons_of_pos]
      · rfl
      · rw [applyUpdate_id]
        exact ha
    · simp only [updateFirst, ha, if_false, Bool.false_eq_true]
      rw [List.find?_cons_of_neg (p := fun (c : CustomerDoc) => c.id == cid) _ ha]
      rw [List.find?_cons_of_neg (p := fun (c : CustomerDoc) => c.id == cid) _ ha] at h
      exact ih h

/-- Claim C6: updating the email of a customer fails with the Conflict error
exactly when the new email is already used by a customer with a different
id; when no different customer uses it and the target exists, the update
succeeds: uniqueness is checked only against other customers, so a
own current email of a customer is always acceptable. -/
theorem claim6_update_email (db : DB) (cid : String) (u : CustomerUpdate)
    (e : String) (he : u.email = some e) :
    (update_customer db cid u = .error ⟨400, "Email already exists"⟩
      ↔ (db.customers.find? (fun c => c.email == e && c.id != cid)).isSome = true)
    ∧ (db.customers.find? (fun c => c.email == e && c.id != cid) = none →
       (db.customers.find? (fun c => c.id == cid)).isSome = true →
       ∃ db' c, update_customer db cid u = .ok (db', c)) := by
  have hne : isEmptyUpdate u = false := by
    simp [isEmptyUpdate, he]
  unfold update_customer
  rw [he]
  simp only [hne, Bool.false_eq_true, if_false]
  cases hf : (db.customers.find? (fun c => c.email == e && c.id != cid)).isSome with
  | true =>
    simp only [hf, if_true]
    constructor
    · simp
    · intro hnone
      rw [hnone] at hf
      simp at hf
  | false =>
    simp only [hf, Bool.false_eq_true, if_false]
    cases hc : (db.customers.find? (fun c => c.id == cid)).isSome with
    | true =>
      simp only [hc, if_true]
      have hs := updateFirst_find_isSome cid u db.customers hc
      obtain ⟨c, hcc⟩ := Option.isSome_iff_exists.mp hs
      constructor
      · unfold get_customer
        rw [hcc]
        simp [Except.map]
      · intro _ _
        refine ⟨⟨updateFirst (fun c => c.id == cid) (applyUpdate u) db.customers,
          db.orders⟩, c, ?_⟩
        unfold get_customer
        rw [hcc]
        rfl
    | false =>
      simp only [hc, Bool.false_eq_true, if_false]
      constructor
      · simp [Err.mk.injEq]
      · intro _ habs
        exact habs.elim

/-- Witness for claim C6: updating the email of customer c1 to its own current
address succeeds against the store sampleDB. -/
theorem claim6_update_email_witness :
    ∃ db' c, update_customer sampleDB "c1" sampleEmailUpdate = .ok (db', c) :=
  (claim6_update_email sampleDB "c1" sampleEmailUpdate "ada@example.com" rfl).2
    (by rfl) (by rfl)

end Backend
